import Mathlib

/-!
Shallow embedding of src/src/tstools/tshides.cpp, the TSDuck tool that lists
HiDes modulator devices. The visible source consists of the option class
HiDesOptions (parsing and validation), the dispatcher MainCode and the entry
point main. The device library (ts::HiDesDevice, ts::HiDesDeviceInfo), the
COM initialization and the UHF frequency tables are external collaborators:
they are modelled as oracles fixing the outcome of every call in one run.
Output is modelled as the list of lines written to standard output, each
line tagged with the constructor of the format statement that produced it.
-/

/-- Modelled from the spec: the values of the external enum ts::BandWidth
that this tool can produce or mention; the enum itself is outside src/. -/
inductive BandWidth where
  | BW_5_MHZ
  | BW_6_MHZ
  | BW_7_MHZ
  | BW_8_MHZ
  deriving DecidableEq

/-- Nominal channel width in MHz denoted by each BandWidth value. -/
def BandWidth.mhz : BandWidth → Nat
  | BandWidth.BW_5_MHZ => 5
  | BandWidth.BW_6_MHZ => 6
  | BandWidth.BW_7_MHZ => 7
  | BandWidth.BW_8_MHZ => 8

/-- Modelled from the spec: the opaque device descriptor produced by the
external collaborator, carrying its own two level rendering (brief vs
verbose); class ts::HiDesDeviceInfo is outside src/. -/
structure HiDesDeviceInfo where
  render : Bool → String

/-- Modelled from the spec: the external device collaborator interface
(enumerate, open by name, open by index, info fetch, gain range query), as
an oracle fixing the result of each call; ts::HiDesDevice is outside src/.
A none result models a call that reports failure. -/
structure Collaborator where
  getAllDevices : Option (List HiDesDeviceInfo)
  openByName : String → Bool
  openByIndex : Nat → Bool
  getInfo : Option HiDesDeviceInfo
  getGainRange : Nat → BandWidth → Option (Int × Int)

/-- Modelled from the spec: the carrier frequency of the first UHF channel,
the documented default of option --frequency; the UHF tables are outside
src/. No claim depends on the concrete value. -/
def UHF_FirstChannelFrequency : Nat := 474000000

/-- One command line after the generic ts::Args analysis: which options are
present and the typed value each one carries. The generic argv scanner of
ts::Args is outside src/; this records its result for the options that
tshides.cpp declares. -/
structure CmdLine where
  count : Bool := false
  gain_range : Bool := false
  adapter : Option Nat := none
  device : Option String := none
  frequency : Option Nat := none
  bandwidth : Option String := none
  verbose : Bool := false

/-- The enumeration attached to option --bandwidth, exactly as declared in
the source: note that the name 6 is bound to BW_5_MHZ there. -/
def bandwidthEnumeration : List (String × BandWidth) :=
  [("5", BandWidth.BW_5_MHZ), ("6", BandWidth.BW_5_MHZ),
   ("7", BandWidth.BW_7_MHZ), ("8", BandWidth.BW_8_MHZ)]

/-- Lookup of a supplied --bandwidth token in the declared enumeration. -/
def enumLookup (s : String) : Option BandWidth :=
  (bandwidthEnumeration.find? fun p => p.1 == s).map Prod.snd

/-- The validated configuration built by the HiDesOptions constructor. -/
structure HiDesOptions where
  count : Bool
  gain_range : Bool
  dev_number : Int
  dev_name : String
  frequency : Nat
  bandwidth : BandWidth
  verbose : Bool

/-- Resolution of the --bandwidth option: the default BW_8_MHZ when absent,
otherwise the enumeration lookup (none models the parse error raised by the
generic analysis on a token outside the enumeration). -/
def bwOf (c : CmdLine) : Option BandWidth :=
  match c.bandwidth with
  | none => some BandWidth.BW_8_MHZ
  | some s => enumLookup s

/-- The HiDesOptions constructor: option extraction with the documented
defaults, the POSITIVE constraint on --frequency, and the mutual exclusion
check between --count and --gain-range. An error value models the non
success process exit taken by exitOnError. -/
def HiDesOptions.parse (c : CmdLine) : Except String HiDesOptions :=
  match bwOf c with
  | none => Except.error "invalid value for option --bandwidth"
  | some bandwidth =>
    if c.frequency == some 0 then
      Except.error "invalid value for option --frequency"
    else if c.count && c.gain_range then
      Except.error "--count and --gain-range are mutually exclusive"
    else
      Except.ok {
        count := c.count
        gain_range := c.gain_range
        dev_number := match c.adapter with | none => -1 | some n => (n : Int)
        dev_name := c.device.getD ""
        frequency := c.frequency.getD UHF_FirstChannelFrequency
        bandwidth := bandwidth
        verbose := c.verbose }

/-- One call to the external device collaborator, recorded by the model so
that claims about which operation the dispatcher attempts can be stated. -/
inductive DevCall where
  | getAll
  | openName (name : String)
  | openIndex (i : Nat)
  | getInfoCall
  | gainRangeCall (freq : Nat) (bw : BandWidth)
  deriving DecidableEq

/-- One line of standard output, tagged by the statement that produced it. -/
inductive OutLine where
  | countLine (n : Nat)
  | deviceLine (s : String)
  | frequencyLine (hz : Nat)
  | bandwidthLine (bw : BandWidth)
  | minGainLine (db : Int)
  | maxGainLine (db : Int)
  | infoLine (s : String)
  | noDeviceLine
  | foundHeader (n : Nat)
  | blankLine
  deriving DecidableEq

/-- Observable behaviour of one MainCode run: the device calls made and the
lines written to standard output, both in order. -/
structure RunResult where
  calls : List DevCall
  output : List OutLine
  deriving DecidableEq

/-- The one_device condition of MainCode:
opt.dev_number greater or equal 0, or a non empty device name. -/
def oneDevice (opt : HiDesOptions) : Bool :=
  decide (0 ≤ opt.dev_number) || !opt.dev_name.isEmpty

/-- The open phase of MainCode: which collaborator call is selected, whether
it succeeds, and the device list it populates (non empty only on a
successful enumerate all call). -/
def openPhase (opt : HiDesOptions) (w : Collaborator) :
    DevCall × Bool × List HiDesDeviceInfo :=
  if !opt.gain_range && !oneDevice opt then
    match w.getAllDevices with
    | some ds => (DevCall.getAll, true, ds)
    | none => (DevCall.getAll, false, [])
  else if !opt.dev_name.isEmpty then
    (DevCall.openName opt.dev_name, w.openByName opt.dev_name, [])
  else
    (DevCall.openIndex (max 0 opt.dev_number).toNat,
     w.openByIndex (max 0 opt.dev_number).toNat, [])

/-- The display phase of MainCode, after the open phase produced the call
made, its success flag and the populated device list. The getGainRange call
is only made when getInfo succeeded, mirroring the short circuit in the
source conjunction. -/
def display (opt : HiDesOptions) (w : Collaborator) (call : DevCall)
    (ok : Bool) (devices : List HiDesDeviceInfo) : RunResult :=
  if !ok then ⟨[call], []⟩
  else if opt.count then ⟨[call], [OutLine.countLine devices.length]⟩
  else if opt.gain_range then
    match w.getInfo with
    | none => ⟨[call, DevCall.getInfoCall], []⟩
    | some info =>
      match w.getGainRange opt.frequency opt.bandwidth with
      | none =>
        ⟨[call, DevCall.getInfoCall,
          DevCall.gainRangeCall opt.frequency opt.bandwidth], []⟩
      | some g =>
        ⟨[call, DevCall.getInfoCall,
          DevCall.gainRangeCall opt.frequency opt.bandwidth],
         [OutLine.deviceLine (info.render false),
          OutLine.frequencyLine opt.frequency,
          OutLine.bandwidthLine opt.bandwidth,
          OutLine.minGainLine g.1,
          OutLine.maxGainLine g.2]⟩
  else if oneDevice opt then
    match w.getInfo with
    | none => ⟨[call, DevCall.getInfoCall], []⟩
    | some info =>
      ⟨[call, DevCall.getInfoCall],
       [OutLine.infoLine (info.render opt.verbose)]⟩
  else if devices.isEmpty then ⟨[call], [OutLine.noDeviceLine]⟩
  else
    ⟨[call],
     (if opt.verbose then
        [OutLine.foundHeader devices.length, OutLine.blankLine]
      else []) ++
       devices.map fun d => OutLine.infoLine (d.render opt.verbose)⟩

/-- MainCode: the dispatcher, isolated from main in the source. -/
def MainCode (opt : HiDesOptions) (w : Collaborator) : RunResult :=
  display opt w (openPhase opt w).1 (openPhase opt w).2.1
    (openPhase opt w).2.2

/-- Process exit status; the source returns EXIT_SUCCESS unless exitOnError
terminated the process earlier with a failure status. -/
inductive ExitStatus where
  | success
  | failure
  deriving DecidableEq

/-- The program entry point: parse the options (a parse error exits with a
failure status before any device operation), then run MainCode when the COM
context initialized, and exit with success. -/
def tshidesMain (c : CmdLine) (comOk : Bool) (w : Collaborator) :
    ExitStatus × RunResult :=
  match HiDesOptions.parse c with
  | Except.error _ => (ExitStatus.failure, ⟨[], []⟩)
  | Except.ok opt =>
    (ExitStatus.success, if comOk then MainCode opt w else ⟨[], []⟩)

/-- Whether an Except value is an error. -/
def isError {ε α : Type} : Except ε α → Bool
  | Except.error _ => true
  | Except.ok _ => false

/-- Concrete command line carrying only the option --bandwidth 6. -/
def cmdBw6 : CmdLine := { bandwidth := some "6" }

/-- Concrete command line carrying both --count and --gain-range. -/
def cmdCountGain : CmdLine := { count := true, gain_range := true }

/-- A device descriptor used as a concrete oracle value. -/
def devA : HiDesDeviceInfo :=
  ⟨fun full => if full then "HiDes device 0 full info" else "HiDes device 0"⟩

/-- Oracle on which every collaborator call fails. -/
def wFail : Collaborator :=
  ⟨none, fun _ => false, fun _ => false, none, fun _ _ => none⟩

/-- Oracle with one device on which every collaborator call succeeds. -/
def wOne : Collaborator :=
  ⟨some [devA], fun _ => true, fun _ => true, some devA,
   fun _ _ => some (-5, 10)⟩

/-- Oracle on which opening succeeds but info and gain queries fail. -/
def wOpenOnly : Collaborator :=
  ⟨some [], fun _ => true, fun _ => true, none, fun _ _ => none⟩

/-- Claim C1, evaluated at the failing input: parsing the valid invocation
that carries only --bandwidth 6 succeeds but yields bandwidth BW_5_MHZ, a
5 MHz configuration instead of the 6 MHz that the option token names. -/
theorem C1_bandwidth_six_yields_five_mhz :
    (HiDesOptions.parse cmdBw6).map (fun o => o.bandwidth) =
      Except.ok BandWidth.BW_5_MHZ ∧
    BandWidth.BW_5_MHZ.mhz = 5 ∧ BandWidth.BW_5_MHZ.mhz ≠ 6 :=
  ⟨rfl, rfl, by decide⟩

/-- Claim C2: whenever both --count and --gain-range are present, whatever
the other flags, parsing reports an error and the process exits with the
failure status, making no device call and producing no output. -/
theorem C2_count_gain_range_conflict (c : CmdLine) (h1 : c.count = true)
    (h2 : c.gain_range = true) (comOk : Bool) (w : Collaborator) :
    isError (HiDesOptions.parse c) = true ∧
      tshidesMain c comOk w = (ExitStatus.failure, ⟨[], []⟩) := by
  have hp : isError (HiDesOptions.parse c) = true := by
    unfold HiDesOptions.parse
    cases bwOf c with
    | none => rfl
    | some bw =>
      simp only [h1, h2, Bool.and_self]
      split
      · rfl
      · rfl
  refine ⟨hp, ?_⟩
  unfold tshidesMain
  cases hpe : HiDesOptions.parse c with
  | error e => rfl
  | ok opt => rw [hpe] at hp; simp [isError] at hp

/-- Witness for claim C2 at the concrete input cmdCountGain. -/
theorem C2_count_gain_range_conflict_witness :
    cmdCountGain.count = true ∧ cmdCountGain.gain_range = true ∧
    (isError (HiDesOptions.parse cmdCountGain) = true ∧
      tshidesMain cmdCountGain true wFail = (ExitStatus.failure, ⟨[], []⟩)) :=
  ⟨rfl, rfl, C2_count_gain_range_conflict cmdCountGain rfl rfl true wFail⟩

/-- The empty command line: every option left at its default. -/
def cmdEmpty : CmdLine := {}

/-- The configuration produced by parsing the empty command line. -/
def optDefault : HiDesOptions :=
  { count := false, gain_range := false, dev_number := -1, dev_name := "",
    frequency := UHF_FirstChannelFrequency,
    bandwidth := BandWidth.BW_8_MHZ, verbose := false }

/-- A failed open phase makes the display phase print nothing. -/
theorem display_not_ok (opt : HiDesOptions) (w : Collaborator)
    (call : DevCall) (devices : List HiDesDeviceInfo) :
    display opt w call false devices = ⟨[call], []⟩ := rfl

/-- The first collaborator call of any display phase is the open call. -/
theorem display_calls_head (opt : HiDesOptions) (w : Collaborator)
    (call : DevCall) (ok : Bool) (devices : List HiDesDeviceInfo) :
    (display opt w call ok devices).calls.head? = some call := by
  unfold display
  repeat' split
  all_goals rfl

/-- When neither the gain range branch nor the single device branch can be
taken, the display phase makes no collaborator call beyond the open call. -/
theorem display_calls_no_query (opt : HiDesOptions) (w : Collaborator)
    (call : DevCall) (ok : Bool) (devices : List HiDesDeviceInfo)
    (hg : opt.gain_range = false) (hone : oneDevice opt = false) :
    (display opt w call ok devices).calls = [call] := by
  unfold display
  cases ok with
  | false => rfl
  | true =>
    cases hc : opt.count with
    | true => simp [hc]
    | false =>
      simp only [hc, hg, hone, Bool.not_true, Bool.false_eq_true, if_false]
      split <;> rfl

/-- Claim C3: whenever the selected open or enumerate call fails, the
dispatcher produces no output, and the process still exits with the success
status since the parser accepted the options. -/
theorem C3_open_failure_silent_success (c : CmdLine) (opt : HiDesOptions)
    (w : Collaborator) (comOk : Bool)
    (hp : HiDesOptions.parse c = Except.ok opt)
    (hfail : (openPhase opt w).2.1 = false) :
    (MainCode opt w).output = [] ∧
      (tshidesMain c comOk w).1 = ExitStatus.success ∧
      (tshidesMain c comOk w).2.output = [] := by
  have hout : (MainCode opt w).output = [] := by
    unfold MainCode
    rw [hfail, display_not_ok]
  refine ⟨hout, ?_, ?_⟩
  · unfold tshidesMain
    rw [hp]
  · unfold tshidesMain
    rw [hp]
    cases comOk <;> simp [hout]

/-- Witness for claim C3: the empty command line against the oracle on
which every call fails. -/
theorem C3_open_failure_silent_success_witness :
    HiDesOptions.parse cmdEmpty = Except.ok optDefault ∧
    (openPhase optDefault wFail).2.1 = false ∧
    ((MainCode optDefault wFail).output = [] ∧
      (tshidesMain cmdEmpty true wFail).1 = ExitStatus.success ∧
      (tshidesMain cmdEmpty true wFail).2.output = []) :=
  ⟨rfl, rfl,
   C3_open_failure_silent_success cmdEmpty optDefault wFail true rfl rfl⟩

/-- Claim C4: with no adapter number, no device name and --gain-range not
set, the dispatcher performs exactly the enumerate all devices call and
never a single device open. -/
theorem C4_enumerate_all_mode (opt : HiDesOptions) (w : Collaborator)
    (hn : opt.dev_number < 0) (hd : opt.dev_name = "")
    (hg : opt.gain_range = false) :
    (MainCode opt w).calls = [DevCall.getAll] := by
  have hn2 : ¬ (0 ≤ opt.dev_number) := not_le.mpr hn
  have hemp : ("" : String).isEmpty = true := rfl
  have hone : oneDevice opt = false := by
    simp [oneDevice, hd, hn2, hemp]
  unfold MainCode
  cases hga : w.getAllDevices with
  | none =>
    have hop : openPhase opt w = (DevCall.getAll, false, []) := by
      simp [openPhase, hone, hg, hga]
    rw [hop]
    exact display_calls_no_query opt w _ _ _ hg hone
  | some ds =>
    have hop : openPhase opt w = (DevCall.getAll, true, ds) := by
      simp [openPhase, hone, hg, hga]
    rw [hop]
    exact display_calls_no_query opt w _ _ _ hg hone

/-- Witness for claim C4: the default configuration against the oracle with
one device. -/
theorem C4_enumerate_all_mode_witness :
    optDefault.dev_number < 0 ∧ optDefault.dev_name = "" ∧
    optDefault.gain_range = false ∧
    (MainCode optDefault wOne).calls = [DevCall.getAll] :=
  ⟨by decide, rfl, rfl,
   C4_enumerate_all_mode optDefault wOne (by decide) rfl rfl⟩

/-- Configuration selecting a device by name. -/
def optNamed : HiDesOptions := { optDefault with dev_name := "mydev" }

/-- Configuration asking only for the gain range. -/
def optGainOnly : HiDesOptions := { optDefault with gain_range := true }

/-- Claim C5: with a non empty device name the dispatcher opens that device
by name, whatever the adapter number and the other flags. -/
theorem C5_open_by_name (opt : HiDesOptions) (w : Collaborator)
    (hd : opt.dev_name ≠ "") :
    (openPhase opt w).1 = DevCall.openName opt.dev_name ∧
    (MainCode opt w).calls.head? = some (DevCall.openName opt.dev_name) := by
  have hne : opt.dev_name.isEmpty = false := by
    cases hde : opt.dev_name.isEmpty
    · rfl
    · exact absurd ((String.isEmpty_iff opt.dev_name).mp hde) hd
  have hop1 : (openPhase opt w).1 = DevCall.openName opt.dev_name := by
    simp [openPhase, oneDevice, hne]
  refine ⟨hop1, ?_⟩
  unfold MainCode
  rw [display_calls_head, hop1]

/-- Witness for claim C5: a named device, with the adapter number unset. -/
theorem C5_open_by_name_witness :
    optNamed.dev_name ≠ "" ∧
    ((openPhase optNamed wOne).1 = DevCall.openName optNamed.dev_name ∧
      (MainCode optNamed wOne).calls.head? =
        some (DevCall.openName optNamed.dev_name)) :=
  ⟨by decide, C5_open_by_name optNamed wOne (by decide)⟩

/-- Claim C6: with no device name and the adapter number unset, when the
dispatcher reaches the open by index branch (here because --gain-range is
set), the open call uses device index 0. -/
theorem C6_open_by_index_zero (opt : HiDesOptions) (w : Collaborator)
    (hd : opt.dev_name = "") (hn : opt.dev_number < 0)
    (hg : opt.gain_range = true) :
    (openPhase opt w).1 = DevCall.openIndex 0 ∧
    (MainCode opt w).calls.head? = some (DevCall.openIndex 0) := by
  have hmax : (max 0 opt.dev_number).toNat = 0 := by
    rw [max_eq_left (le_of_lt hn)]
    rfl
  have hemp : ("" : String).isEmpty = true := rfl
  have hop1 : (openPhase opt w).1 = DevCall.openIndex 0 := by
    simp [openPhase, hg, hd, hemp, hmax]
  refine ⟨hop1, ?_⟩
  unfold MainCode
  rw [display_calls_head, hop1]

/-- Witness for claim C6: the gain range configuration with no device
selection. -/
theorem C6_open_by_index_zero_witness :
    optGainOnly.dev_name = "" ∧ optGainOnly.dev_number < 0 ∧
    optGainOnly.gain_range = true ∧
    ((openPhase optGainOnly wOne).1 = DevCall.openIndex 0 ∧
      (MainCode optGainOnly wOne).calls.head? =
        some (DevCall.openIndex 0)) :=
  ⟨rfl, by decide, rfl,
   C6_open_by_index_zero optGainOnly wOne rfl (by decide) rfl⟩

/-- Concrete command line of claim C7:
--gain-range --frequency 698000000 --bandwidth 8. -/
def cmdGain698 : CmdLine :=
  { gain_range := true, frequency := some 698000000,
    bandwidth := some "8" }

/-- The configuration parsed from cmdGain698. -/
def optGain698 : HiDesOptions :=
  { count := false, gain_range := true, dev_number := -1, dev_name := "",
    frequency := 698000000, bandwidth := BandWidth.BW_8_MHZ,
    verbose := false }

/-- Claim C7: the invocation --gain-range --frequency 698000000
--bandwidth 8 against a device that opens and answers both queries prints
exactly five lines in order: Device, Frequency 698000000 Hz, Bandwidth
8 MHz, minimum gain and maximum gain. -/
theorem C7_gain_range_five_lines (w : Collaborator)
    (info : HiDesDeviceInfo) (mn mx : Int)
    (hopen : w.openByIndex 0 = true)
    (hinfo : w.getInfo = some info)
    (hgain : w.getGainRange 698000000 BandWidth.BW_8_MHZ = some (mn, mx)) :
    HiDesOptions.parse cmdGain698 = Except.ok optGain698 ∧
    (MainCode optGain698 w).output =
      [OutLine.deviceLine (info.render false),
       OutLine.frequencyLine 698000000,
       OutLine.bandwidthLine BandWidth.BW_8_MHZ,
       OutLine.minGainLine mn,
       OutLine.maxGainLine mx] := by
  refine ⟨rfl, ?_⟩
  have hop : openPhase optGain698 w =
      (DevCall.openIndex 0, w.openByIndex 0, []) := rfl
  unfold MainCode
  rw [hop, hopen]
  simp [display, optGain698, hinfo, hgain]

/-- Witness for claim C7 against the oracle with one device. -/
theorem C7_gain_range_five_lines_witness :
    wOne.openByIndex 0 = true ∧ wOne.getInfo = some devA ∧
    wOne.getGainRange 698000000 BandWidth.BW_8_MHZ = some (-5, 10) ∧
    (HiDesOptions.parse cmdGain698 = Except.ok optGain698 ∧
      (MainCode optGain698 wOne).output =
        [OutLine.deviceLine (devA.render false),
         OutLine.frequencyLine 698000000,
         OutLine.bandwidthLine BandWidth.BW_8_MHZ,
         OutLine.minGainLine (-5),
         OutLine.maxGainLine 10]) :=
  ⟨rfl, rfl, rfl, C7_gain_range_five_lines wOne devA (-5) 10 rfl rfl rfl⟩

/-- On a successful open, when the info fetch or the gain query fails, the
gain range step of the display phase prints nothing. -/
theorem display_gain_range_failure (opt : HiDesOptions) (w : Collaborator)
    (call : DevCall) (devices : List HiDesDeviceInfo)
    (hg : opt.gain_range = true) (hc : opt.count = false)
    (hfail : w.getInfo = none ∨
      w.getGainRange opt.frequency opt.bandwidth = none) :
    (display opt w call true devices).output = [] := by
  unfold display
  cases hgi : w.getInfo with
  | none => simp [hc, hg, hgi]
  | some info =>
    rcases hfail with hf | hf
    · simp [hgi] at hf
    · simp [hc, hg, hgi, hf]

/-- Claim C8: in every gain range run where the device opens but the info
fetch or the gain query fails, no line at all is printed. -/
theorem C8_gain_range_failure_prints_nothing (opt : HiDesOptions)
    (w : Collaborator) (hg : opt.gain_range = true) (hc : opt.count = false)
    (hok : (openPhase opt w).2.1 = true)
    (hfail : w.getInfo = none ∨
      w.getGainRange opt.frequency opt.bandwidth = none) :
    (MainCode opt w).output = [] := by
  unfold MainCode
  rw [hok]
  exact display_gain_range_failure opt w _ _ hg hc hfail

/-- Witness for claim C8: the gain range configuration against the oracle
on which opening succeeds but both queries fail. -/
theorem C8_gain_range_failure_prints_nothing_witness :
    optGainOnly.gain_range = true ∧ optGainOnly.count = false ∧
    (openPhase optGainOnly wOpenOnly).2.1 = true ∧
    (wOpenOnly.getInfo = none ∨
      wOpenOnly.getGainRange optGainOnly.frequency optGainOnly.bandwidth =
        none) ∧
    (MainCode optGainOnly wOpenOnly).output = [] :=
  ⟨rfl, rfl, rfl, Or.inl rfl,
   C8_gain_range_failure_prints_nothing optGainOnly wOpenOnly rfl rfl rfl
     (Or.inl rfl)⟩

/-- Claim C9: on the enumeration path (no count, no gain range, no device
selection) with a successful enumerate call, zero devices print exactly the
no device found line; one or more devices print the count header only in
verbose mode, followed by one info line per device. -/
theorem C9_enumeration_output (opt : HiDesOptions) (w : Collaborator)
    (ds : List HiDesDeviceInfo)
    (hc : opt.count = false) (hg : opt.gain_range = false)
    (hn : opt.dev_number < 0) (hd : opt.dev_name = "")
    (hga : w.getAllDevices = some ds) :
    (ds = [] → (MainCode opt w).output = [OutLine.noDeviceLine]) ∧
    (ds ≠ [] → (MainCode opt w).output =
      (if opt.verbose then
         [OutLine.foundHeader ds.length, OutLine.blankLine]
       else []) ++ ds.map fun d => OutLine.infoLine (d.render opt.verbose)) := by
  have hn2 : ¬ (0 ≤ opt.dev_number) := not_le.mpr hn
  have hemp : ("" : String).isEmpty = true := rfl
  have hone : oneDevice opt = false := by
    simp [oneDevice, hd, hn2, hemp]
  have hop : openPhase opt w = (DevCall.getAll, true, ds) := by
    simp [openPhase, hone, hg, hga]
  constructor
  · intro he
    subst he
    unfold MainCode
    rw [hop]
    simp [display, hc, hg, hone]
  · intro hne
    have hne2 : ds.isEmpty = false := by
      cases ds with
      | nil => exact absurd rfl hne
      | cons d tl => rfl
    unfold MainCode
    rw [hop]
    simp [display, hc, hg, hone, hne2]

/-- Witness for claim C9: the default configuration against the oracle
whose enumerate call reports zero devices. -/
theorem C9_enumeration_output_witness :
    optDefault.count = false ∧ optDefault.gain_range = false ∧
    optDefault.dev_number < 0 ∧ optDefault.dev_name = "" ∧
    wOpenOnly.getAllDevices = some [] ∧
    ((([] : List HiDesDeviceInfo) = [] →
        (MainCode optDefault wOpenOnly).output = [OutLine.noDeviceLine]) ∧
     (([] : List HiDesDeviceInfo) ≠ [] →
        (MainCode optDefault wOpenOnly).output =
          (if optDefault.verbose then
             [OutLine.foundHeader ([] : List HiDesDeviceInfo).length,
              OutLine.blankLine]
           else []) ++ ([] : List HiDesDeviceInfo).map
            fun d => OutLine.infoLine (d.render optDefault.verbose))) :=
  ⟨rfl, rfl, by decide, rfl, rfl,
   C9_enumeration_output optDefault wOpenOnly [] rfl rfl (by decide) rfl
     rfl⟩

/-- Command line of claim C10: --count together with --adapter 2. -/
def cmdCountAdapter : CmdLine := { count := true, adapter := some 2 }

/-- The configuration parsed from cmdCountAdapter. -/
def optCountAdapter : HiDesOptions :=
  { count := true, gain_range := false, dev_number := 2, dev_name := "",
    frequency := UHF_FirstChannelFrequency,
    bandwidth := BandWidth.BW_8_MHZ, verbose := false }

/-- Claim C10: when --count is combined with a device selection and parsing
succeeds, the dispatcher opens the selected device instead of enumerating,
and a successful open prints the size of the never populated enumeration
list, 0, whatever the oracle would have enumerated. -/
theorem C10_count_single_device_prints_zero (c : CmdLine)
    (opt : HiDesOptions) (w : Collaborator)
    (_hp : HiDesOptions.parse c = Except.ok opt)
    (hc : opt.count = true) (hone : oneDevice opt = true)
    (hok : (openPhase opt w).2.1 = true) :
    (openPhase opt w).1 ≠ DevCall.getAll ∧
    (MainCode opt w).output = [OutLine.countLine 0] := by
  have hfirst : (!opt.gain_range && !oneDevice opt) = false := by
    rw [hone]
    simp
  have hdev : (openPhase opt w).2.2 = [] := by
    unfold openPhase
    rw [hfirst]
    simp only [Bool.false_eq_true, if_false]
    split <;> rfl
  constructor
  · unfold openPhase
    rw [hfirst]
    simp only [Bool.false_eq_true, if_false]
    split <;> simp
  · unfold MainCode
    rw [hok, hdev]
    simp [display, hc]

/-- Witness for claim C10: --count with --adapter 2, against the oracle
with one device. -/
theorem C10_count_single_device_prints_zero_witness :
    HiDesOptions.parse cmdCountAdapter = Except.ok optCountAdapter ∧
    optCountAdapter.count = true ∧ oneDevice optCountAdapter = true ∧
    (openPhase optCountAdapter wOne).2.1 = true ∧
    ((openPhase optCountAdapter wOne).1 ≠ DevCall.getAll ∧
      (MainCode optCountAdapter wOne).output = [OutLine.countLine 0]) :=
  ⟨rfl, rfl, rfl, rfl,
   C10_count_single_device_prints_zero cmdCountAdapter optCountAdapter wOne
     rfl rfl rfl rfl⟩
